import Mathlib

/-!
Shallow embedding of the Pomodoro timer state machine of `pomotide-app`
(component `PomodoroTimer`, file `components/pomodoro-timer` — the current
version of the component).  Durations, remaining times and counters are JS
numbers in the source; within the flows treated here they are integral, so
they are modelled as `Int` (with `Int.fdiv` for `Math.floor` of a division,
`Int.tmod` for the JS `%` operator, and `max 0 _` for `Math.max(0, _)`).
Storage/JSON side effects are modelled by explicit data (returned snapshots,
removal flags, emitted callback events).
-/

namespace Pomotide

/-- Phase enum `TimerState` — the enum `"work" | "short_break" | "long_break"`. -/
inductive TimerState where
  | work
  | short_break
  | long_break
deriving DecidableEq

/-- Status enum `TimerStatus` — `"idle" | "running" | "paused"`. -/
inductive TimerStatus where
  | idle
  | running
  | paused
deriving DecidableEq

/-- The `remainingTimes` record: remaining seconds per phase. -/
structure RemainingTimes where
  work : Int
  short_break : Int
  long_break : Int
deriving DecidableEq

/-- Look up `remainingTimes[state]`. -/
def RemainingTimes.get (r : RemainingTimes) : TimerState → Int
  | .work => r.work
  | .short_break => r.short_break
  | .long_break => r.long_break

/-- Functional update `{ ...prev, [state]: v }`. -/
def RemainingTimes.set (r : RemainingTimes) : TimerState → Int → RemainingTimes
  | .work, v => { r with work := v }
  | .short_break, v => { r with short_break := v }
  | .long_break, v => { r with long_break := v }

/-- The configuration props consumed by `PomodoroTimer` that the timer logic
reads: the three durations (minutes), the two auto-start flags, and the
optional `cycleLength` prop. -/
structure TimerConfig where
  workDuration : Int
  shortBreakDuration : Int
  longBreakDuration : Int
  autoStartBreaks : Bool
  autoStartPomodoros : Bool
  cycleLength : Option Int
deriving DecidableEq

/-- Duration lookup `getDuration`: `switch (state) { case "work": return workDuration * 60; ... }`. -/
def getDuration (c : TimerConfig) : TimerState → Int
  | .work => c.workDuration * 60
  | .short_break => c.shortBreakDuration * 60
  | .long_break => c.longBreakDuration * 60

/-- Normalized cycle length: `cycleLengthNormalized = Math.max(1, Math.floor(cycleLength ?? 4))`
(`Math.floor` is the identity on the integral inputs modelled here). -/
def cycleLengthNormalized (c : TimerConfig) : Int :=
  max 1 (c.cycleLength.getD 4)

/-- The component state the timer logic manipulates: `timerState`,
`timerStatus`, `remainingTimes`, `completedPomodoros`, `sessionFocusSeconds`. -/
structure TimerModel where
  timerState : TimerState
  timerStatus : TimerStatus
  remainingTimes : RemainingTimes
  completedPomodoros : Int
  sessionFocusSeconds : Int
deriving DecidableEq

/-- Transition `switchTimerState(newState, autoStart)`: sets the phase and sets status to
`running` when `autoStart` else `idle`; touches nothing else. -/
def switchTimerState (s : TimerModel) (newState : TimerState) (autoStart : Bool) :
    TimerModel :=
  { s with timerState := newState,
           timerStatus := if autoStart then .running else .idle }

/-- Transition `toggleTimer`: `nextStatus = timerStatus === "running" ? "paused" : "running"`;
only the status changes (the snapshot write it also performs carries the
unchanged `remainingTimes`). -/
def toggleTimer (s : TimerModel) : TimerModel :=
  { s with timerStatus := if s.timerStatus = .running then .paused else .running }

/-- Transition `resetCurrentTimer`: resets only the current phase's remaining time to its
configured full duration and sets status to `idle`. -/
def resetCurrentTimer (c : TimerConfig) (s : TimerModel) : TimerModel :=
  { s with remainingTimes :=
             s.remainingTimes.set s.timerState (getDuration c s.timerState),
           timerStatus := .idle }

/-- Direction argument of `navigateTimer`. -/
inductive NavDirection where
  | prev
  | next
deriving DecidableEq

/-- Index of a phase in the cyclic order `["work", "short_break", "long_break"]`. -/
def navIndex : TimerState → Nat
  | .work => 0
  | .short_break => 1
  | .long_break => 2

/-- Phase at an index of `["work", "short_break", "long_break"]`. -/
def navStateAt (i : Nat) : TimerState :=
  if i = 0 then .work else if i = 1 then .short_break else .long_break

/-- Transition `navigateTimer(direction)`: moves through the cyclic phase order (wrapping
both ways) and always calls `switchTimerState(states[newIndex], true)`. -/
def navigateTimer (s : TimerModel) (d : NavDirection) : TimerModel :=
  let i := navIndex s.timerState
  let j := match d with
    | .next => (i + 1) % 3
    | .prev => if i = 0 then 2 else i - 1
  switchTimerState s (navStateAt j) true

/-- One run of the countdown effect, together with the completion latch
`completingRef.current`: while `running` with `timeLeft > 0` the scheduled
callback decrements the current phase's remaining by 1 and increments
`sessionFocusSeconds` iff the phase is `work`; while `running` with
`timeLeft <= 0` it invokes `handleTimerComplete` once unless the latch is
held.  Returns the new state paired with whether `handleTimerComplete` was
invoked. -/
def tickEffect (s : TimerModel) (completingLatch : Bool) : TimerModel × Bool :=
  if s.timerStatus = .running then
    if 0 < s.remainingTimes.get s.timerState then
      ({ s with
           remainingTimes :=
             s.remainingTimes.set s.timerState
               (s.remainingTimes.get s.timerState - 1),
           sessionFocusSeconds :=
             s.sessionFocusSeconds + (if s.timerState = .work then 1 else 0) },
       false)
    else
      (s, !completingLatch)
  else
    (s, false)

/-- The result of `handleTimerComplete`: the new component state and the
`onSessionComplete(phase, durationMinutes)` events it fired. -/
structure CompleteResult where
  state : TimerModel
  events : List (TimerState × Int)
deriving DecidableEq

/-- Completion handler `handleTimerComplete`: on `work` completion, increments
`completedPomodoros`, fires `onSessionComplete("work", floor(duration/60))`,
resets the work remaining to full, and switches to `long_break` when
`newCompletedPomodoros % cycleLengthNormalized === 0` else `short_break`
(auto-start per `autoStartBreaks`).  On break completion, fires the callback,
resets that break's remaining to full and switches to `work` (auto-start per
`autoStartPomodoros`). -/
def handleTimerComplete (c : TimerConfig) (s : TimerModel) : CompleteResult :=
  if s.timerState = .work then
    let newCompletedPomodoros := s.completedPomodoros + 1
    let nextState : TimerState :=
      if newCompletedPomodoros.tmod (cycleLengthNormalized c) = 0 then
        .long_break
      else
        .short_break
    let s1 : TimerModel :=
      { s with completedPomodoros := newCompletedPomodoros,
               remainingTimes := s.remainingTimes.set .work (getDuration c .work) }
    { state := switchTimerState s1 nextState c.autoStartBreaks,
      events := [(.work, (getDuration c .work).fdiv 60)] }
  else
    let s1 : TimerModel :=
      { s with remainingTimes :=
                 s.remainingTimes.set s.timerState (getDuration c s.timerState) }
    { state := switchTimerState s1 .work c.autoStartPomodoros,
      events := [(s.timerState, (getDuration c s.timerState).fdiv 60)] }

/-- The settings-reactivity effect body (the `setRemainingTimes` run after the
initial mount whenever its dependencies — the three durations, `timerState`,
`timerStatus` — change): each phase that is not the active one is set to its
full configured duration; the active phase is set to its full duration only
when `idle`, else kept. -/
def settingsRefresh (c : TimerConfig) (s : TimerModel) : TimerModel :=
  { s with remainingTimes :=
      { work :=
          if s.timerState = .work then
            (if s.timerStatus = .idle then getDuration c .work
             else s.remainingTimes.work)
          else getDuration c .work,
        short_break :=
          if s.timerState = .short_break then
            (if s.timerStatus = .idle then getDuration c .short_break
             else s.remainingTimes.short_break)
          else getDuration c .short_break,
        long_break :=
          if s.timerState = .long_break then
            (if s.timerStatus = .idle then getDuration c .long_break
             else s.remainingTimes.long_break)
          else getDuration c .long_break } }

/-- A JSON field value of the persisted snapshot's `remainingTimes` object,
classified by what `Number(v)` converts it to: `fin n` — a value converting
to a finite number `n`; `nonfin` — a value converting to `NaN`/`Infinity`
(so `pickNumber` rejects it); `nullv` — JSON `null` (nullish for `??`,
`Number(null) = 0`).  An absent (`undefined`) field is `Option.none` one
level up. -/
inductive RawVal where
  | fin (n : Int)
  | nonfin
  | nullv
deriving DecidableEq

/-- The JS nullish-coalescing operator `a ?? b` on possibly-absent fields. -/
def jsCoalesce (a b : Option RawVal) : Option RawVal :=
  match a with
  | none => b
  | some .nullv => b
  | some v => some v

/-- Validator `pickNumber(v) = Number.isFinite(Number(v)) ? Number(v) : undefined`. -/
def pickNumber (v : Option RawVal) : Option Int :=
  match v with
  | none => none
  | some .nonfin => none
  | some .nullv => some 0
  | some (.fin n) => some n

/-- The persisted snapshot's `remainingTimes` object with the alternative key
spellings the restore code probes. -/
structure RawRemaining where
  work : Option RawVal
  workSeconds : Option RawVal
  work_sec : Option RawVal
  short_break : Option RawVal
  shortBreak : Option RawVal
  short_break_seconds : Option RawVal
  long_break : Option RawVal
  longBreak : Option RawVal
  long_break_seconds : Option RawVal
deriving DecidableEq

/-- Key chain `parsed.remainingTimes.work ?? parsed.remainingTimes.workSeconds ??
parsed.remainingTimes.work_sec`. -/
def chainWork (r : RawRemaining) : Option RawVal :=
  jsCoalesce (jsCoalesce r.work r.workSeconds) r.work_sec

/-- Key chain `short_break ?? shortBreak ?? short_break_seconds`. -/
def chainShort (r : RawRemaining) : Option RawVal :=
  jsCoalesce (jsCoalesce r.short_break r.shortBreak) r.short_break_seconds

/-- Key chain `long_break ?? longBreak ?? long_break_seconds`. -/
def chainLong (r : RawRemaining) : Option RawVal :=
  jsCoalesce (jsCoalesce r.long_break r.longBreak) r.long_break_seconds

/-- A parsed snapshot that passed the structural guard
`parsed && parsed.timestamp && parsed.remainingTimes` (so `timestamp` is a
truthy epoch-milliseconds number).  `timerState`/`timerStatus` are kept
optional: the code applies `?? "work"` to the former and compares the latter
with `=== "running"`. -/
structure RawSnapshot where
  timerState : Option TimerState
  timerStatus : Option TimerStatus
  remainingTimes : RawRemaining
  timestamp : Int
deriving DecidableEq

/-- The `restored` record of the synchronous `initialFromSnapshot`: each
phase's chain result when it picks a finite number, else that phase's full
configured duration. -/
def restoredTimes (c : TimerConfig) (r : RawRemaining) : RemainingTimes :=
  { work := (pickNumber (chainWork r)).getD (getDuration c .work),
    short_break := (pickNumber (chainShort r)).getD (getDuration c .short_break),
    long_break := (pickNumber (chainLong r)).getD (getDuration c .long_break) }

/-- The triple `initialFromSnapshot` evaluates to. -/
structure InitState where
  timerState : TimerState
  timerStatus : TimerStatus
  remainingTimes : RemainingTimes
deriving DecidableEq

/-- The valid-snapshot path of the synchronous `initialFromSnapshot`
initializer, reconciling the snapshot against the wall clock `now` (epoch
ms): `elapsedSec = Math.floor((now - timestamp) / 1000)` is subtracted (only
when the snapshot's status was `running`) from the snapshotted phase's
remaining, clamped at 0; the status becomes `running`/`paused` as
snapshotted while that remaining is positive, else `idle`. -/
def initialFromSnapshot (c : TimerConfig) (snap : RawSnapshot) (now : Int) :
    InitState :=
  let restored := restoredTimes c snap.remainingTimes
  let parsedState := snap.timerState.getD .work
  let wasRunning := snap.timerStatus = some .running
  let elapsedSec := (now - snap.timestamp).fdiv 1000
  let adjusted :=
    restored.set parsedState
      (max 0 (restored.get parsedState - (if wasRunning then elapsedSec else 0)))
  let status : TimerStatus :=
    if 0 < adjusted.get parsedState then
      (if wasRunning then .running else .paused)
    else .idle
  { timerState := parsedState, timerStatus := status, remainingTimes := adjusted }

/-- The `restored` record of the mount-restore effect: like `restoredTimes`,
but a phase whose chain picks no finite number falls back to the current
in-memory remaining (`remainingTimes.work` etc.), not to the full duration. -/
def mountRestoredTimes (cur : RemainingTimes) (r : RawRemaining) :
    RemainingTimes :=
  { work := (pickNumber (chainWork r)).getD cur.work,
    short_break := (pickNumber (chainShort r)).getD cur.short_break,
    long_break := (pickNumber (chainLong r)).getD cur.long_break }

/-- Outcome of the mount-restore effect: the adopted state, whether the stale
snapshot was removed from storage, and the `onSessionComplete` events fired
by the effect (the restore path contains no call, so this is always `[]`). -/
structure MountRestoreResult where
  timerState : TimerState
  timerStatus : TimerStatus
  remainingTimes : RemainingTimes
  snapshotRemoved : Bool
  events : List (TimerState × Int)
deriving DecidableEq

/-- The valid-snapshot path of the mount-restore effect, run over the current
in-memory state `cur` at wall clock `now`: reconciles like
`initialFromSnapshot` (with in-memory fallbacks), adopts the snapshot's
phase/status when the adjusted remaining is positive, and otherwise keeps
the current phase/status and removes the stale snapshot; no completion
callback is fired on this path. -/
def mountRestore (cur : InitState) (snap : RawSnapshot) (now : Int) :
    MountRestoreResult :=
  let restored0 := mountRestoredTimes cur.remainingTimes snap.remainingTimes
  let parsedState := snap.timerState.getD .work
  let wasRunning := snap.timerStatus = some .running
  let elapsedSec := (now - snap.timestamp).fdiv 1000
  let newRemaining :=
    max 0 (restored0.get parsedState - (if wasRunning then elapsedSec else 0))
  let restored := restored0.set parsedState newRemaining
  if 0 < newRemaining then
    { timerState := parsedState,
      timerStatus := if wasRunning then .running else .paused,
      remainingTimes := restored,
      snapshotRemoved := false,
      events := [] }
  else
    { timerState := cur.timerState,
      timerStatus := cur.timerStatus,
      remainingTimes := restored,
      snapshotRemoved := true,
      events := [] }

/-- The settings page's duration input handler
`handleDurationChange`: `Number.parseInt(value) || 1` (a parse failure or a
parse to `0` yields `1`, modelled by `Option Int` with `none` for failure),
then `Math.max(1, Math.min(120, numValue))`. -/
def handleDurationChange (parsed : Option Int) : Int :=
  let numValue := match parsed with
    | none => 1
    | some 0 => 1
    | some n => n
  max 1 (min 120 numValue)

/-! ### Helper lemmas -/

lemma RemainingTimes.get_set_self (r : RemainingTimes) (st : TimerState) (v : Int) :
    (r.set st v).get st = v := by
  cases st <;> rfl

lemma RemainingTimes.get_set_ne (r : RemainingTimes) {st q : TimerState} {v : Int}
    (h : q ≠ st) : (r.set st v).get q = r.get q := by
  cases st <;> cases q <;> first
    | rfl
    | exact absurd rfl h

lemma Int.fdiv_thousand (a : Int) : a.fdiv 1000 = a / 1000 :=
  Int.fdiv_eq_ediv a (by norm_num)

/-! ### Sample configurations and states used by witnesses -/

/-- The component's default props: 25/5/15 minutes, auto-start on, no
`cycleLength` prop. -/
def cfgDefault : TimerConfig :=
  { workDuration := 25, shortBreakDuration := 5, longBreakDuration := 15,
    autoStartBreaks := true, autoStartPomodoros := true, cycleLength := none }

/-- Default durations with an explicit `cycleLength` of 4. -/
def cfgCycle4 : TimerConfig :=
  { cfgDefault with cycleLength := some 4 }

/-- A mid-countdown running work phase: 900 s left of work out of 1500,
breaks at their full defaults. -/
def stRunningWork : TimerModel :=
  { timerState := .work, timerStatus := .running,
    remainingTimes := { work := 900, short_break := 300, long_break := 900 },
    completedPomodoros := 0, sessionFocusSeconds := 0 }

/-- An idle state at work, full defaults. -/
def stIdleWork : TimerModel :=
  { timerState := .work, timerStatus := .idle,
    remainingTimes := { work := 1500, short_break := 300, long_break := 900 },
    completedPomodoros := 0, sessionFocusSeconds := 0 }

/-- A running short break with 42 s left. -/
def stShortBreak42 : TimerModel :=
  { timerState := .short_break, timerStatus := .running,
    remainingTimes := { work := 777, short_break := 42, long_break := 900 },
    completedPomodoros := 2, sessionFocusSeconds := 1234 }

/-! ### Claims -/

/-- C6 — Tick semantics: in every state with status RUNNING and the current
phase's remaining > 0, one run of the countdown effect decreases the current
phase's remaining by exactly 1, leaves the other two phases' remaining
unchanged, and increments `sessionFocusSeconds` by exactly 1 iff the current
phase is WORK (breaks leave it unchanged). -/
theorem C6_tick_semantics (s : TimerModel) (latch : Bool)
    (hrun : s.timerStatus = .running)
    (hpos : 0 < s.remainingTimes.get s.timerState) :
    ((tickEffect s latch).1.remainingTimes.get s.timerState
        = s.remainingTimes.get s.timerState - 1)
    ∧ (∀ q : TimerState, q ≠ s.timerState →
        (tickEffect s latch).1.remainingTimes.get q = s.remainingTimes.get q)
    ∧ ((tickEffect s latch).1.sessionFocusSeconds
        = s.sessionFocusSeconds + (if s.timerState = .work then 1 else 0)) := by
  refine ⟨?_, fun q hq => ?_, ?_⟩
  · simp [tickEffect, hrun, hpos, RemainingTimes.get_set_self]
  · simp [tickEffect, hrun, hpos, RemainingTimes.get_set_ne _ hq]
  · simp [tickEffect, hrun, hpos]

/-- C6 witness: a concrete tick on `stRunningWork` drops work from 900 to 899,
keeps the breaks at 300/900, and bumps the focus stopwatch by 1. -/
theorem C6_tick_semantics_witness :
    ((tickEffect stRunningWork false).1.remainingTimes.get .work = 900 - 1)
    ∧ ((tickEffect stRunningWork false).1.remainingTimes.get .short_break = 300)
    ∧ ((tickEffect stRunningWork false).1.remainingTimes.get .long_break = 900)
    ∧ ((tickEffect stRunningWork false).1.sessionFocusSeconds = 0 + 1) := by
  obtain ⟨h1, h2, h3⟩ := C6_tick_semantics stRunningWork false (by decide) (by decide)
  exact ⟨h1, h2 .short_break (by decide), h2 .long_break (by decide), h3⟩

/-- C8 — Toggle round-trip: from RUNNING, `toggleTimer` yields PAUSED, and a
second `toggleTimer` yields RUNNING with the whole `remainingTimes` record
exactly as before the first toggle; from IDLE, `toggleTimer` starts RUNNING
rather than being a no-op. -/
theorem C8_toggle_round_trip (s : TimerModel) :
    (s.timerStatus = .running →
        (toggleTimer s).timerStatus = .paused
        ∧ (toggleTimer (toggleTimer s)).timerStatus = .running
        ∧ (toggleTimer (toggleTimer s)).remainingTimes = s.remainingTimes
        ∧ (toggleTimer s).remainingTimes = s.remainingTimes)
    ∧ (s.timerStatus = .idle → (toggleTimer s).timerStatus = .running) := by
  constructor <;> intro h <;> simp [toggleTimer, h]

/-- C8 witness: the round trip on `stRunningWork` and the IDLE start on
`stIdleWork`, concretely. -/
theorem C8_toggle_round_trip_witness :
    ((toggleTimer stRunningWork).timerStatus = .paused
      ∧ (toggleTimer (toggleTimer stRunningWork)).timerStatus = .running
      ∧ (toggleTimer (toggleTimer stRunningWork)).remainingTimes
          = stRunningWork.remainingTimes
      ∧ (toggleTimer stRunningWork).remainingTimes = stRunningWork.remainingTimes)
    ∧ (toggleTimer stIdleWork).timerStatus = .running :=
  ⟨(C8_toggle_round_trip stRunningWork).1 (by decide),
   (C8_toggle_round_trip stIdleWork).2 (by decide)⟩

/-- C9 — Reset scope: `resetCurrentTimer` sets the current phase's remaining
to its configured full duration and the status to IDLE, and changes nothing
else: the other phases' remaining, `completedPomodoros`,
`sessionFocusSeconds` and the current phase are all unchanged. -/
theorem C9_reset_scope (c : TimerConfig) (s : TimerModel) :
    ((resetCurrentTimer c s).remainingTimes.get s.timerState
        = getDuration c s.timerState)
    ∧ (resetCurrentTimer c s).timerStatus = .idle
    ∧ (∀ q : TimerState, q ≠ s.timerState →
        (resetCurrentTimer c s).remainingTimes.get q = s.remainingTimes.get q)
    ∧ (resetCurrentTimer c s).completedPomodoros = s.completedPomodoros
    ∧ (resetCurrentTimer c s).sessionFocusSeconds = s.sessionFocusSeconds
    ∧ (resetCurrentTimer c s).timerState = s.timerState := by
  refine ⟨?_, rfl, fun q hq => ?_, rfl, rfl, rfl⟩
  · simp [resetCurrentTimer, RemainingTimes.get_set_self]
  · simp [resetCurrentTimer, RemainingTimes.get_set_ne _ hq]

/-- C9 witness: resetting while in a 42-second short break restores the full
300-second short break, leaves work at 777 and the long break at 900, and
leaves the counters at 2 and 1234. -/
theorem C9_reset_scope_witness :
    ((resetCurrentTimer cfgDefault stShortBreak42).remainingTimes.get .short_break
        = getDuration cfgDefault .short_break)
    ∧ (resetCurrentTimer cfgDefault stShortBreak42).timerStatus = .idle
    ∧ ((resetCurrentTimer cfgDefault stShortBreak42).remainingTimes.get .work = 777)
    ∧ ((resetCurrentTimer cfgDefault stShortBreak42).remainingTimes.get
        .long_break = 900)
    ∧ (resetCurrentTimer cfgDefault stShortBreak42).completedPomodoros = 2
    ∧ (resetCurrentTimer cfgDefault stShortBreak42).sessionFocusSeconds = 1234 := by
  obtain ⟨h1, h2, h3, h4, h5, _⟩ := C9_reset_scope cfgDefault stShortBreak42
  exact ⟨h1, h2, h3 .work (by decide), h3 .long_break (by decide), h4, h5⟩

/-- C7 — Duration-change isolation: while some phase is actively RUNNING or
PAUSED, the settings-reactivity update leaves that active phase's remaining
unchanged and sets every non-active phase's remaining to its (new) full
configured duration; phase and status are untouched. -/
theorem C7_duration_change_isolation (c : TimerConfig) (s : TimerModel)
    (h : s.timerStatus ≠ .idle) :
    ((settingsRefresh c s).remainingTimes.get s.timerState
        = s.remainingTimes.get s.timerState)
    ∧ (∀ q : TimerState, q ≠ s.timerState →
        (settingsRefresh c s).remainingTimes.get q = getDuration c q)
    ∧ (settingsRefresh c s).timerState = s.timerState
    ∧ (settingsRefresh c s).timerStatus = s.timerStatus := by
  refine ⟨?_, fun q hq => ?_, rfl, rfl⟩
  · cases hst : s.timerState <;>
      simp [settingsRefresh, RemainingTimes.get, hst, h]
  · cases hst : s.timerState <;> cases q <;>
      simp_all [settingsRefresh, RemainingTimes.get]

/-- C7 witness: with WORK running at 900 of 1500, a settings update doubling
the short break (5 → 10 minutes) leaves work at 900 and sets the short break
to the new full 600 s (and the long break to its full 900 s). -/
theorem C7_duration_change_isolation_witness :
    ((settingsRefresh { cfgDefault with shortBreakDuration := 10 } stRunningWork)
        |>.remainingTimes.get .work) = 900
    ∧ ((settingsRefresh { cfgDefault with shortBreakDuration := 10 } stRunningWork)
        |>.remainingTimes.get .short_break) = 600
    ∧ ((settingsRefresh { cfgDefault with shortBreakDuration := 10 } stRunningWork)
        |>.remainingTimes.get .long_break) = 900 := by
  obtain ⟨h1, h2, -, -⟩ :=
    C7_duration_change_isolation { cfgDefault with shortBreakDuration := 10 }
      stRunningWork (by decide)
  exact ⟨h1, (h2 .short_break (by decide)).trans (by decide),
    (h2 .long_break (by decide)).trans (by decide)⟩

/-- C3 — Cycle boundary: completing a WORK phase increments
`completedPomodoros` by exactly 1, and the phase switched to is LONG_BREAK
exactly when the new count modulo the normalized cycle length is 0,
otherwise SHORT_BREAK. -/
theorem C3_cycle_boundary (c : TimerConfig) (s : TimerModel)
    (h : s.timerState = .work) :
    ((handleTimerComplete c s).state.completedPomodoros = s.completedPomodoros + 1)
    ∧ ((handleTimerComplete c s).state.timerState = .long_break
        ↔ (s.completedPomodoros + 1).tmod (cycleLengthNormalized c) = 0)
    ∧ ((handleTimerComplete c s).state.timerState = .short_break
        ↔ ¬ (s.completedPomodoros + 1).tmod (cycleLengthNormalized c) = 0) := by
  by_cases hm : (s.completedPomodoros + 1).tmod (cycleLengthNormalized c) = 0 <;>
    simp [handleTimerComplete, h, hm, switchTimerState]

/-- C3 witness: with cycleLength = 4, the 1st, 2nd and 3rd work completions
are followed by SHORT_BREAK and the 4th and 8th by LONG_BREAK (counts 0, 1,
2, 3 and 7 before completion). -/
theorem C3_cycle_boundary_witness :
    ((handleTimerComplete cfgCycle4 stRunningWork).state.timerState = .short_break)
    ∧ ((handleTimerComplete cfgCycle4
          { stRunningWork with completedPomodoros := 1 }).state.timerState
        = .short_break)
    ∧ ((handleTimerComplete cfgCycle4
          { stRunningWork with completedPomodoros := 2 }).state.timerState
        = .short_break)
    ∧ ((handleTimerComplete cfgCycle4
          { stRunningWork with completedPomodoros := 3 }).state.timerState
        = .long_break)
    ∧ ((handleTimerComplete cfgCycle4
          { stRunningWork with completedPomodoros := 7 }).state.timerState
        = .long_break)
    ∧ ((handleTimerComplete cfgCycle4 stRunningWork).state.completedPomodoros = 1) :=
  ⟨(C3_cycle_boundary cfgCycle4 stRunningWork rfl).2.2.mpr (by decide),
   (C3_cycle_boundary cfgCycle4
      { stRunningWork with completedPomodoros := 1 } rfl).2.2.mpr (by decide),
   (C3_cycle_boundary cfgCycle4
      { stRunningWork with completedPomodoros := 2 } rfl).2.2.mpr (by decide),
   (C3_cycle_boundary cfgCycle4
      { stRunningWork with completedPomodoros := 3 } rfl).2.1.mpr (by decide),
   (C3_cycle_boundary cfgCycle4
      { stRunningWork with completedPomodoros := 7 } rfl).2.1.mpr (by decide),
   (C3_cycle_boundary cfgCycle4 stRunningWork rfl).1⟩

/-- Default config with the work duration set to 0 minutes. -/
def cfgZeroWork : TimerConfig :=
  { cfgDefault with workDuration := 0 }

/-- C5 counterexample: the timer does not clamp durations — with a configured
`workDuration` of 0, `getDuration` yields a full work duration of 0 seconds,
not at least 1 minute, refuting "every phase's full duration used for
countdown and resets is at least 1 minute". -/
theorem C5_duration_not_clamped_counterexample :
    getDuration cfgZeroWork .work = 0
    ∧ ¬ (60 ≤ getDuration cfgZeroWork .work)
    ∧ (resetCurrentTimer cfgZeroWork stIdleWork).remainingTimes.get .work = 0 := by
  decide

/-- C5 (amended) — only the cycle length is normalized by the timer
(`max(1, floor(cycleLength ?? 4))`, hence ≥ 1); phase durations pass through
`getDuration` unclamped as `configured * 60`; durations are clamped into
`[1, 120]` only by the settings page's input handler. -/
theorem C5_clamping_amended (c : TimerConfig) (v : Option Int) :
    cycleLengthNormalized c = max 1 (c.cycleLength.getD 4)
    ∧ 1 ≤ cycleLengthNormalized c
    ∧ getDuration c .work = c.workDuration * 60
    ∧ getDuration c .short_break = c.shortBreakDuration * 60
    ∧ getDuration c .long_break = c.longBreakDuration * 60
    ∧ 1 ≤ handleDurationChange v
    ∧ handleDurationChange v ≤ 120 := by
  refine ⟨rfl, le_max_left _ _, rfl, rfl, rfl, le_max_left _ _,
    max_le (by norm_num) (min_le_left _ _)⟩

/-- C2 — the code loses progress in the phase being left: starting from WORK
running with 900 s of 1500 left, `navigateTimer("next")` itself keeps work
at 900, but the settings-reactivity effect — which re-runs after the switch
because `timerState`/`timerStatus` are among its dependencies — then resets
the now-inactive WORK remaining to the full 1500 s, so the partial 900 s is
lost when WORK is later re-entered. -/
theorem C2_phase_switch_drops_left_phase_progress :
    stRunningWork.remainingTimes.work = 900
    ∧ (navigateTimer stRunningWork .next).timerState = .short_break
    ∧ (navigateTimer stRunningWork .next).remainingTimes.work = 900
    ∧ (settingsRefresh cfgDefault
        (navigateTimer stRunningWork .next)).remainingTimes.work = 1500 := by
  decide

/-- The snapshot reconciliation's `elapsedSec` computed `e` whole seconds after the snapshot's timestamp is
exactly `e`. -/
lemma elapsed_exact (ts : Int) (e : Nat) :
    (ts + 1000 * (e : Int) - ts).fdiv 1000 = e := by
  rw [Int.fdiv_thousand]
  omega

/-- C1 — Restore-on-mount reconciliation (`initialFromSnapshot`): for a valid
snapshot whose three remaining-time chains pick the finite numbers `w`,
`sb`, `lb`, restoring `e` whole seconds after the snapshot's timestamp
subtracts `e` (clamped at 0) from the snapshotted phase only when the
snapshot's status was RUNNING — the other two phases are taken unchanged,
and the restored status is RUNNING exactly while the adjusted remaining is
positive; with a PAUSED snapshot nothing is subtracted and every phase's
remaining is exactly the snapshot's. -/
theorem C1_restore_reconciliation (c : TimerConfig) (snap : RawSnapshot)
    (e : Nat) (w sb lb : Int) (ph : TimerState)
    (hw : pickNumber (chainWork snap.remainingTimes) = some w)
    (hsb : pickNumber (chainShort snap.remainingTimes) = some sb)
    (hlb : pickNumber (chainLong snap.remainingTimes) = some lb)
    (hst : snap.timerState = some ph)
    (hnn : 0 ≤ (RemainingTimes.mk w sb lb).get ph) :
    (snap.timerStatus = some .running →
        ((initialFromSnapshot c snap
            (snap.timestamp + 1000 * (e : Int))).remainingTimes.get ph
          = max 0 ((RemainingTimes.mk w sb lb).get ph - e))
        ∧ (∀ q : TimerState, q ≠ ph →
            (initialFromSnapshot c snap
              (snap.timestamp + 1000 * (e : Int))).remainingTimes.get q
              = (RemainingTimes.mk w sb lb).get q)
        ∧ ((initialFromSnapshot c snap
              (snap.timestamp + 1000 * (e : Int))).timerStatus = .running
            ↔ 0 < max 0 ((RemainingTimes.mk w sb lb).get ph - e)))
    ∧ (snap.timerStatus = some .paused →
        ((initialFromSnapshot c snap
            (snap.timestamp + 1000 * (e : Int))).remainingTimes.get ph
          = (RemainingTimes.mk w sb lb).get ph)
        ∧ (∀ q : TimerState, q ≠ ph →
            (initialFromSnapshot c snap
              (snap.timestamp + 1000 * (e : Int))).remainingTimes.get q
              = (RemainingTimes.mk w sb lb).get q)) := by
  have hres : restoredTimes c snap.remainingTimes = ⟨w, sb, lb⟩ := by
    simp [restoredTimes, hw, hsb, hlb]
  constructor
  · intro hr
    refine ⟨?_, fun q hq => ?_, ?_⟩
    · simp [initialFromSnapshot, hres, hst, hr, elapsed_exact,
        RemainingTimes.get_set_self]
    · simp [initialFromSnapshot, hres, hst, hr, elapsed_exact,
        RemainingTimes.get_set_ne _ hq]
    · by_cases hM : 0 < max 0 ((RemainingTimes.mk w sb lb).get ph - e) <;>
        simp [initialFromSnapshot, hres, hst, hr, elapsed_exact,
          RemainingTimes.get_set_self, hM]
  · intro hp
    refine ⟨?_, fun q hq => ?_⟩
    · simp [initialFromSnapshot, hres, hst, hp, elapsed_exact,
        RemainingTimes.get_set_self, max_eq_right hnn]
    · simp [initialFromSnapshot, hres, hst, hp, elapsed_exact,
        RemainingTimes.get_set_ne _ hq]

/-- A `remainingTimes` object with all three canonical keys finite:
work 600 s, short break 300 s, long break 900 s. -/
def rawAll600 : RawRemaining :=
  { work := some (.fin 600), workSeconds := none, work_sec := none,
    short_break := some (.fin 300), shortBreak := none,
    short_break_seconds := none,
    long_break := some (.fin 900), longBreak := none,
    long_break_seconds := none }

/-- The spec's P5 snapshot: WORK running with 600 s left, written at epoch
`T = 1700000000000` ms. -/
def snapRun600 : RawSnapshot :=
  { timerState := some .work, timerStatus := some .running,
    remainingTimes := rawAll600, timestamp := 1700000000000 }

/-- The same snapshot, PAUSED. -/
def snapPaused600 : RawSnapshot :=
  { snapRun600 with timerStatus := some .paused }

/-- C1 witness: restoring `snapRun600` 120 s later yields work = 480,
short/long break unchanged, status RUNNING; restoring the PAUSED variant
120 s later yields work = 600 unchanged. -/
theorem C1_restore_reconciliation_witness :
    ((initialFromSnapshot cfgDefault snapRun600
        (snapRun600.timestamp + 1000 * ((120 : Nat) : Int))).remainingTimes.get
      .work = 480)
    ∧ ((initialFromSnapshot cfgDefault snapRun600
        (snapRun600.timestamp + 1000 * ((120 : Nat) : Int))).remainingTimes.get
      .short_break = 300)
    ∧ ((initialFromSnapshot cfgDefault snapRun600
        (snapRun600.timestamp + 1000 * ((120 : Nat) : Int))).timerStatus
      = .running)
    ∧ ((initialFromSnapshot cfgDefault snapPaused600
        (snapPaused600.timestamp + 1000 * ((120 : Nat) : Int))).remainingTimes.get
      .work = 600) := by
  obtain ⟨hrun, hpau⟩ := C1_restore_reconciliation cfgDefault snapRun600 120
    600 300 900 .work (by decide) (by decide) (by decide) (by decide) (by decide)
  obtain ⟨h1, h2, h3⟩ := hrun (by decide)
  obtain ⟨hrun2, hpau2⟩ := C1_restore_reconciliation cfgDefault snapPaused600 120
    600 300 900 .work (by decide) (by decide) (by decide) (by decide) (by decide)
  obtain ⟨h4, -⟩ := hpau2 (by decide)
  refine ⟨h1.trans (by decide), (h2 .short_break (by decide)).trans (by decide),
    h3.mpr (by decide), h4.trans (by decide)⟩

/-- C4 — Exhausted during absence: for a RUNNING snapshot whose snapshotted
phase's remaining minus the elapsed seconds is ≤ 0, the synchronous
initializer yields status IDLE, the mount-restore effect clamps that phase's
remaining to 0, keeps the IDLE status, removes the stale snapshot from
storage, fires no `onSessionComplete` event, and the countdown effect run on
the restored (non-RUNNING) state never invokes the completion handler. -/
theorem C4_exhausted_during_absence (c : TimerConfig) (snap : RawSnapshot)
    (e : Nat) (w sb lb : Int) (ph : TimerState)
    (hw : pickNumber (chainWork snap.remainingTimes) = some w)
    (hsb : pickNumber (chainShort snap.remainingTimes) = some sb)
    (hlb : pickNumber (chainLong snap.remainingTimes) = some lb)
    (hst : snap.timerState = some ph)
    (hr : snap.timerStatus = some .running)
    (hex : (RemainingTimes.mk w sb lb).get ph - (e : Int) ≤ 0) :
    ((initialFromSnapshot c snap
        (snap.timestamp + 1000 * (e : Int))).timerStatus = .idle)
    ∧ ((mountRestore
          (initialFromSnapshot c snap (snap.timestamp + 1000 * (e : Int)))
          snap (snap.timestamp + 1000 * (e : Int))).remainingTimes.get ph = 0)
    ∧ ((mountRestore
          (initialFromSnapshot c snap (snap.timestamp + 1000 * (e : Int)))
          snap (snap.timestamp + 1000 * (e : Int))).timerStatus = .idle)
    ∧ ((mountRestore
          (initialFromSnapshot c snap (snap.timestamp + 1000 * (e : Int)))
          snap (snap.timestamp + 1000 * (e : Int))).snapshotRemoved = true)
    ∧ ((mountRestore
          (initialFromSnapshot c snap (snap.timestamp + 1000 * (e : Int)))
          snap (snap.timestamp + 1000 * (e : Int))).events = [])
    ∧ (∀ (m : TimerModel) (latch : Bool),
        m.timerStatus =
          (mountRestore
            (initialFromSnapshot c snap (snap.timestamp + 1000 * (e : Int)))
            snap (snap.timestamp + 1000 * (e : Int))).timerStatus →
        (tickEffect m latch).2 = false) := by
  have hres : restoredTimes c snap.remainingTimes = ⟨w, sb, lb⟩ := by
    simp [restoredTimes, hw, hsb, hlb]
  have hmres : ∀ cur : RemainingTimes,
      mountRestoredTimes cur snap.remainingTimes = ⟨w, sb, lb⟩ := by
    intro cur
    simp [mountRestoredTimes, hw, hsb, hlb]
  have hzero : max 0 ((RemainingTimes.mk w sb lb).get ph - (e : Int)) = 0 :=
    max_eq_left hex
  have hinit : (initialFromSnapshot c snap
      (snap.timestamp + 1000 * (e : Int))).timerStatus = .idle := by
    simp [initialFromSnapshot, hres, hst, hr, elapsed_exact,
      RemainingTimes.get_set_self, hzero]
  refine ⟨hinit, ?_, ?_, ?_, ?_, ?_⟩
  · simp [mountRestore, hmres, hst, hr, elapsed_exact, hzero,
      RemainingTimes.get_set_self]
  · simp [mountRestore, hmres, hst, hr, elapsed_exact, hzero, hinit]
  · simp [mountRestore, hmres, hst, hr, elapsed_exact, hzero]
  · simp [mountRestore, hmres, hst, hr, elapsed_exact, hzero]
  · intro m latch hm
    rw [show (mountRestore
        (initialFromSnapshot c snap (snap.timestamp + 1000 * (e : Int)))
        snap (snap.timestamp + 1000 * (e : Int))).timerStatus = .idle by
          simp [mountRestore, hmres, hst, hr, elapsed_exact, hzero, hinit]] at hm
    simp [tickEffect, hm]

/-- The spec's P6 snapshot: WORK running with only 10 s left. -/
def snapRun10 : RawSnapshot :=
  { snapRun600 with
      remainingTimes := { rawAll600 with work := some (.fin 10) } }

/-- C4 witness: restoring `snapRun10` 30 s after its timestamp yields work
clamped to 0, status IDLE, the snapshot removed, no completion event, and a
subsequent countdown-effect run invokes no completion. -/
theorem C4_exhausted_during_absence_witness :
    ((initialFromSnapshot cfgDefault snapRun10
        (snapRun10.timestamp + 1000 * ((30 : Nat) : Int))).timerStatus = .idle)
    ∧ ((mountRestore
          (initialFromSnapshot cfgDefault snapRun10
            (snapRun10.timestamp + 1000 * ((30 : Nat) : Int)))
          snapRun10
          (snapRun10.timestamp + 1000 * ((30 : Nat) : Int))).remainingTimes.get
        .work = 0)
    ∧ ((mountRestore
          (initialFromSnapshot cfgDefault snapRun10
            (snapRun10.timestamp + 1000 * ((30 : Nat) : Int)))
          snapRun10
          (snapRun10.timestamp + 1000 * ((30 : Nat) : Int))).timerStatus = .idle)
    ∧ ((mountRestore
          (initialFromSnapshot cfgDefault snapRun10
            (snapRun10.timestamp + 1000 * ((30 : Nat) : Int)))
          snapRun10
          (snapRun10.timestamp + 1000 * ((30 : Nat) : Int))).snapshotRemoved
        = true)
    ∧ ((mountRestore
          (initialFromSnapshot cfgDefault snapRun10
            (snapRun10.timestamp + 1000 * ((30 : Nat) : Int)))
          snapRun10
          (snapRun10.timestamp + 1000 * ((30 : Nat) : Int))).events = []) := by
  obtain ⟨h1, h2, h3, h4, h5, -⟩ := C4_exhausted_during_absence cfgDefault
    snapRun10 30 10 300 900 .work (by decide) (by decide) (by decide)
    (by decide) (by decide) (by decide)
  exact ⟨h1, h2, h3, h4, h5⟩

/-- C10 — Per-phase snapshot field fallback: each phase's entry of the
persisted `remainingTimes` is validated independently.  A phase whose key
chain picks no finite number falls back — to the full configured duration in
the synchronous initializer, to the current in-memory value in the
mount-restore effect — while another phase whose chain picks a finite number
still adopts it; and the alternative key spellings (`workSeconds`,
`shortBreak`) are accepted when the canonical key is absent. -/
theorem C10_per_phase_fallback (c : TimerConfig) (cur : RemainingTimes)
    (r : RawRemaining) (n nl m : Int) :
    (pickNumber (chainWork r) = none →
        (restoredTimes c r).work = getDuration c .work
        ∧ (mountRestoredTimes cur r).work = cur.work)
    ∧ (pickNumber (chainShort r) = some n →
        (restoredTimes c r).short_break = n
        ∧ (mountRestoredTimes cur r).short_break = n)
    ∧ (pickNumber (chainLong r) = some nl →
        (restoredTimes c r).long_break = nl
        ∧ (mountRestoredTimes cur r).long_break = nl)
    ∧ (r.work = none → r.workSeconds = some (.fin m) →
        (restoredTimes c r).work = m ∧ (mountRestoredTimes cur r).work = m)
    ∧ (r.short_break = none → r.shortBreak = some (.fin m) →
        (restoredTimes c r).short_break = m
        ∧ (mountRestoredTimes cur r).short_break = m) := by
  refine ⟨fun h => ?_, fun h => ?_, fun h => ?_, fun h1 h2 => ?_,
    fun h1 h2 => ?_⟩ <;>
    simp_all [restoredTimes, mountRestoredTimes, chainWork, chainShort,
      chainLong, jsCoalesce, pickNumber]

/-- A snapshot `remainingTimes` whose `work` entry is non-finite, whose short
break is given only under the `shortBreak` spelling, and whose long break is
finite under the canonical key. -/
def rawMixed : RawRemaining :=
  { work := some .nonfin, workSeconds := none, work_sec := none,
    short_break := none, shortBreak := some (.fin 123),
    short_break_seconds := none,
    long_break := some (.fin 555), longBreak := none,
    long_break_seconds := none }

/-- C10 witness: on `rawMixed`, work falls back (to 1500 s in the initializer
with default config, to the in-memory 900 s in the mount restore) while the
`shortBreak`-spelled 123 s and the long break's 555 s are adopted by both. -/
theorem C10_per_phase_fallback_witness :
    ((restoredTimes cfgDefault rawMixed).work = getDuration cfgDefault .work)
    ∧ ((mountRestoredTimes stRunningWork.remainingTimes rawMixed).work = 900)
    ∧ ((restoredTimes cfgDefault rawMixed).short_break = 123)
    ∧ ((mountRestoredTimes stRunningWork.remainingTimes rawMixed).short_break
        = 123)
    ∧ ((restoredTimes cfgDefault rawMixed).long_break = 555)
    ∧ ((mountRestoredTimes stRunningWork.remainingTimes rawMixed).long_break
        = 555) := by
  obtain ⟨h1, h2, h3, h4, h5⟩ := C10_per_phase_fallback cfgDefault
    stRunningWork.remainingTimes rawMixed 123 555 0
  obtain ⟨h1a, h1b⟩ := h1 (by decide)
  obtain ⟨h2a, h2b⟩ := h2 (by decide)
  obtain ⟨h3a, h3b⟩ := h3 (by decide)
  exact ⟨h1a, h1b.trans (by decide), h2a, h2b, h3a, h3b⟩

end Pomotide
